import Mathlib

/-!
Verification of the background-task scheduling layer (`InvenTree/tasks.py`).

We shallowly embed the functions the specification talks about:

* the persisted settings store (`InvenTreeSetting.get_setting` / `set_setting`),
  modelled as an association list with first-match lookup;
* `check_daily_holdoff`, `record_task_attempt`, `record_task_success`;
* `offload_task` (dispatcher), with the Python module environment and the
  `eval` fallback made explicit;
* `schedule_task` (scheduler upsert against the external recurring-job store);
* the `scheduled_task` registration wrapper and the `TaskRegister` class,
  the latter with Python's class-attribute lookup made explicit;
* the tag-parsing and persisting tail of `check_for_updates`, including a
  model of `re.match` for the pattern used there;
* the migration-apply `try/except NotSupportedError` block of
  `check_for_migrations`.

Timestamps are modelled as integers counting hours (`timedelta(days=n)` is
`24 * n`, `timedelta(hours=12)` is `12`).  `datetime.fromisoformat` (which
raises `ValueError` on malformed input) and `datetime.isoformat` are
collaborator functions of the Python standard library and are passed as
parameters `parse : String → Option Int` and `iso : Int → String`.
-/

namespace InvenTreeTasks

/-- The persisted settings store: key/value pairs of strings, first match
wins, so `set_setting` can simply push a new pair at the front. -/
abbrev Settings := List (String × String)

/-- Model of `InvenTreeSetting.get_setting(key, '', cache=False)`: the stored
value, or the default `""` when the key is absent. -/
def get_setting (s : Settings) (key : String) : String :=
  match s.find? (fun p => p.1 == key) with
  | some p => p.2
  | none => ""

/-- Model of `InvenTreeSetting.set_setting(key, value, None)`. -/
def set_setting (s : Settings) (key value : String) : Settings :=
  (key, value) :: s

/-- Model of `record_task_attempt` (tasks.py lines 146-153): stores the
ISO rendering of *now* under the `_{task}_ATTEMPT` key. -/
def record_task_attempt (iso : Int → String) (now : Int) (s : Settings)
    (task_name : String) : Settings :=
  set_setting s ("_" ++ task_name ++ "_ATTEMPT") (iso now)

/-- Model of `record_task_success` (tasks.py lines 156-161): stores the
ISO rendering of *now* under the `_{task}_SUCCESS` key. -/
def record_task_success (iso : Int → String) (now : Int) (s : Settings)
    (task_name : String) : Settings :=
  set_setting s ("_" ++ task_name ++ "_SUCCESS") (iso now)

/-- The tail of `check_daily_holdoff` from tasks.py line 123 on: the
12-hour attempt guard, then recording a fresh attempt and returning
`True`. -/
def check_attempt (parse : String → Option Int) (iso : Int → String)
    (now : Int) (s : Settings) (task_name : String) : Bool × Settings :=
  let attempt_raw := get_setting s ("_" ++ task_name ++ "_ATTEMPT")
  let last_attempt : Option Int :=
    if attempt_raw = "" then none else parse attempt_raw
  match last_attempt with
  | some t =>
    if t > now - 12 then
      (false, s)
    else
      (true, record_task_attempt iso now s task_name)
  | none => (true, record_task_attempt iso now s task_name)

/-- Model of `check_daily_holdoff` (tasks.py lines 77-143).

The `time.sleep(random.randint(1, 5))` is a pure delay with no state
effect, so it does not appear; `now` is the time at which the checks are
evaluated.  Parsing a stored timestamp with `datetime.fromisoformat`
raising `ValueError` corresponds to `parse` returning `none`; the Python
code then sets the variable to `None`, so a malformed value falls through
to the next check exactly like an absent one.  A parsed `datetime` is
always truthy in Python, so every parsed value reaches the comparison. -/
def check_daily_holdoff (parse : String → Option Int) (iso : Int → String)
    (now : Int) (s : Settings) (task_name : String) (n_days : Int) :
    Bool × Settings :=
  if n_days ≤ 0 then
    (false, s)
  else
    let success_raw := get_setting s ("_" ++ task_name ++ "_SUCCESS")
    let last_success : Option Int :=
      if success_raw = "" then none else parse success_raw
    match last_success with
    | some t =>
      if t > now - 24 * n_days then
        (false, s)
      else
        check_attempt parse iso now s task_name
    | none => check_attempt parse iso now s task_name

/-- The success guard of `check_daily_holdoff` (lines 107-120) as a
standalone condition: a stored, parseable success timestamp strictly
within `n_days` (as `24 * n_days` hours) of `now`. -/
def successBlocks (parse : String → Option Int) (now : Int) (s : Settings)
    (task_name : String) (n_days : Int) : Bool :=
  let raw := get_setting s ("_" ++ task_name ++ "_SUCCESS")
  if raw = "" then false
  else
    match parse raw with
    | some t => decide (t > now - 24 * n_days)
    | none => false

/-- The attempt guard of `check_daily_holdoff` (lines 123-137) as a
standalone condition: a stored, parseable attempt timestamp strictly
within 12 hours of `now`. -/
def attemptBlocks (parse : String → Option Int) (now : Int) (s : Settings)
    (task_name : String) : Bool :=
  let raw := get_setting s ("_" ++ task_name ++ "_ATTEMPT")
  if raw = "" then false
  else
    match parse raw with
    | some t => decide (t > now - 12)
    | none => false

/-- Value of a list of decimal digit characters (the guaranteed-success
case of Python's `int(x)` on a regex `\d+` group). -/
def digitsToNat (cs : List Char) : Nat :=
  cs.foldl (fun n c => 10 * n + (c.toNat - 48)) 0

/-- Concrete stand-in for `datetime.fromisoformat` used by witnesses:
reads a decimal number, `none` on anything else (the `ValueError` case). -/
def parseTs (v : String) : Option Int :=
  if v.data ≠ [] ∧ v.data.all Char.isDigit then
    some (digitsToNat v.data)
  else
    none

/-- Concrete stand-in for `datetime.isoformat` used by witnesses. -/
def isoTs (t : Int) : String :=
  toString t

/-! ### Dispatcher (`offload_task`, tasks.py lines 164-225) -/

/-- A function object, identified by a reference id. -/
abbrev FuncId := Nat

/-- The positional arguments of a dispatch (`*args`); keyword arguments
behave identically for the properties at stake. -/
abbrev Args := List Nat

/-- The `taskname` argument of `offload_task`: either a direct callable
reference or a dotted-path string. -/
inductive TaskRef where
  | func (f : FuncId)
  | str (path : String)
deriving DecidableEq

/-- The Python runtime environment the dispatcher's string resolution
consults: importable modules with their attribute dictionaries, and the
names visible to `eval` in the namespace of `tasks.py` itself (module
globals and builtins). -/
structure PyEnv where
  modules : List (String × List (String × FuncId))
  evalEnv : List (String × FuncId)
deriving DecidableEq

/-- Outcome of `eval(func)` on one dotted-path component. -/
inductive EvalRes where
  | found (f : FuncId)
  | nameError
  | pySynErr
deriving DecidableEq

/-- Splits a character list at every `'.'`; the segments between dots,
in order, with empty segments kept. -/
def splitDots (cs : List Char) : List (List Char) :=
  match cs with
  | [] => [[]]
  | c :: rest =>
    let r := splitDots rest
    if c = '.' then
      [] :: r
    else
      match r with
      | h :: t => (c :: h) :: t
      | [] => [[c]]

/-- Model of Python `taskname.split('.')`. -/
def pySplitDot (s : String) : List String :=
  (splitDots s.data).map List.asString

/-- True for a simple Python identifier (the only component shape that
`eval` accepts as a bare name). -/
def isPyIdentifier (s : String) : Bool :=
  match s.data with
  | [] => false
  | c :: cs => (c.isAlpha || c == '_') && cs.all (fun d => d.isAlphanum || d == '_')

/-- Model of `eval(func)` at tasks.py line 219: a simple identifier is
looked up in the enclosing namespace, raising `NameError` when absent;
text that is not an identifier fails to parse (`SyntaxError`, which the
surrounding `except NameError` does not catch). -/
def pyEval (env : PyEnv) (name : String) : EvalRes :=
  if isPyIdentifier name then
    match env.evalEnv.find? (fun p => p.1 == name) with
    | some p => .found p.2
    | none => .nameError
  else
    .pySynErr

/-- Uncaught Python exceptions that the embedded fragments can raise. -/
inductive PyExn where
  | pySynErr
  | attributeError
  | valueError
deriving DecidableEq

deriving instance DecidableEq for Except

/-- The observable effects of one `offload_task` call: enqueue operations
handed to the worker pool (`AsyncTask(...).run()`), synchronous inline
invocations, and logged warnings (`raise_warning`). -/
structure DispatchOutcome where
  enqueued : List (TaskRef × Args)
  calls : List (FuncId × Args)
  warnings : Nat
deriving DecidableEq

/-- Model of `offload_task` (tasks.py lines 164-225).

`worker_running` is the value of the `is_worker_running()` collaborator.
The asynchronous branch hands the task to the worker pool and returns
without waiting (its `except ImportError` guard concerns a failure inside
the worker library and adds only a warning, which no claim touches, so
the enqueue is modelled as succeeding).  The synchronous branch mirrors
the source: callables are invoked directly; strings are split on `'.'`
(`ValueError` unless exactly three components), the two-component module
path is imported (`ModuleNotFoundError` caught), the function is fetched
with `getattr` (`AttributeError` caught, leaving `_func = None`), and a
`None` result falls back to `eval` (`NameError` caught; `SyntaxError`
not).

`offload_sync_str` is the string-resolution part of the synchronous
branch (tasks.py lines 194-225). -/
def offload_sync_str (env : PyEnv) (path : String) (args : Args) :
    Except PyExn DispatchOutcome :=
  match pySplitDot path with
  | [app, mod, fn] =>
    match env.modules.find? (fun p => p.1 == app ++ "." ++ mod) with
    | none => .ok { enqueued := [], calls := [], warnings := 1 }
    | some m =>
      match m.2.find? (fun p => p.1 == fn) with
      | some p => .ok { enqueued := [], calls := [(p.2, args)], warnings := 0 }
      | none =>
        match pyEval env fn with
        | .found f => .ok { enqueued := [], calls := [(f, args)], warnings := 0 }
        | .nameError => .ok { enqueued := [], calls := [], warnings := 1 }
        | .pySynErr => .error .pySynErr
  | _ => .ok { enqueued := [], calls := [], warnings := 1 }

/-- The dispatcher `offload_task` itself: the branch condition of
tasks.py line 182, the asynchronous enqueue, and the synchronous branch
over the two task shapes. -/
def offload_task (env : PyEnv) (worker_running : Bool) (taskname : TaskRef)
    (args : Args) (force_async : Bool) (force_sync : Bool) :
    Except PyExn DispatchOutcome :=
  if force_async || (worker_running && !force_sync) then
    .ok { enqueued := [(taskname, args)], calls := [], warnings := 0 }
  else
    match taskname with
    | .func f => .ok { enqueued := [], calls := [(f, args)], warnings := 0 }
    | .str path => offload_sync_str env path args

/-- The branch condition at tasks.py line 182, deciding between the
asynchronous and the synchronous path. -/
def asyncPath (worker_running force_async force_sync : Bool) : Bool :=
  force_async || (worker_running && !force_sync)

/-- The enqueue operations of a dispatch result (none when an exception
escaped). -/
def enqueuedOf (r : Except PyExn DispatchOutcome) : List (TaskRef × Args) :=
  match r with
  | .ok o => o.enqueued
  | .error _ => []

/-! ### Version-tag parsing (`check_for_updates`, tasks.py lines 463-491)

Model of `re.match(r"^.*(\d+)\.(\d+)\.(\d+).*$", tag)`.  The leading
greedy `.*` consumes the longest prefix after which `(\d+)\.(\d+)\.(\d+)`
still matches; each `(\d+)` is greedy, and since a digit can never also
begin the following `\.`, no further backtracking inside the groups can
occur; the trailing `.*$` accepts any remainder.  So the match succeeds
exactly when some suffix starts with `digits '.' digits '.' digits`, and
the groups come from the latest such suffix. -/

/-- Reads `(\d+)\.(\d+)\.(\d+)` at the head of the character list,
returning the three greedy digit groups. -/
def readThreeGroups (cs : List Char) : Option (List String) :=
  let d1 := cs.takeWhile Char.isDigit
  let r1 := cs.dropWhile Char.isDigit
  match d1, r1 with
  | [], _ => none
  | _, [] => none
  | _, c1 :: t1 =>
    if c1 = '.' then
      let d2 := t1.takeWhile Char.isDigit
      let r2 := t1.dropWhile Char.isDigit
      match d2, r2 with
      | [], _ => none
      | _, [] => none
      | _, c2 :: t2 =>
        if c2 = '.' then
          let d3 := t2.takeWhile Char.isDigit
          if d3 = [] then none
          else some [d1.asString, d2.asString, d3.asString]
        else none
    else none

/-- Groups for the latest suffix at which `readThreeGroups` succeeds
(the greedy `^.*` picks the longest consumable prefix). -/
def greedyScan (cs : List Char) : Option (List String) :=
  match cs with
  | [] => readThreeGroups []
  | _ :: rest =>
    match greedyScan rest with
    | some gs => some gs
    | none => readThreeGroups cs

/-- Model of `re.match(r"^.*(\d+)\.(\d+)\.(\d+).*$", tag)`, as the list
of captured groups, or `none` when the pattern does not match. -/
def re_match_version (tag : String) : Option (List String) :=
  greedyScan tag.data

/-- Model of the tail of `check_for_updates` (tasks.py lines 465-491),
from the fetched `tag_name` on.  Mirrors the source line by line:

* `match.groups()` is called without checking `match` for `None`, so a
  non-matching tag raises `AttributeError`;
* the `len(match.groups()) != 3` guard logs a warning and returns with
  no state change (unreachable: the pattern has exactly three groups);
* `latest_version = [int(x) for x in match.groups()]` and its
  `len != 3` `ValueError` guard (also unreachable);
* on success, the tag string is stored under `_INVENTREE_LATEST_VERSION`
  and `record_task_success('check_for_updates')` runs.

The result carries the parsed `latest_version` (when one was computed)
and the settings store. -/
def check_for_updates_tag (iso : Int → String) (now : Int) (tag : String)
    (s : Settings) : Except PyExn (Option (List Nat) × Settings) :=
  match re_match_version tag with
  | none => .error .attributeError
  | some gs =>
    if gs.length ≠ 3 then
      .ok (none, s)
    else
      let latest_version := gs.map (fun g => digitsToNat g.data)
      if latest_version.length ≠ 3 then
        .error .valueError
      else
        let s1 := set_setting s "_INVENTREE_LATEST_VERSION" tag
        let s2 := record_task_success iso now s1 "check_for_updates"
        .ok (some latest_version, s2)

/-! ### Scheduler upsert (`schedule_task`, tasks.py lines 33-65) -/

/-- One row of the external recurring-job store (`django_q.models.Schedule`). -/
structure ScheduleEntry where
  name : String
  func : String
  schedule_type : String
  minutes : Option Int
  repeats : Int
deriving DecidableEq

/-- The keyword arguments of `schedule_task`: the scheduling parameters
the callers pass (`schedule_type`, `minutes`), plus the optional
`repeats` that the function itself defaults to `-1` via
`kwargs.pop('repeats', -1)`. -/
structure ScheduleKwargs where
  schedule_type : String
  minutes : Option Int
  repeats : Option Int
deriving DecidableEq

/-- The field update `Schedule.objects.filter(...).update(**kwargs)`
performs on one matching row: the scheduling parameters are overwritten
(`repeats` defaulted to `-1` by `kwargs.pop('repeats', -1)`), `name` and
`func` are untouched. -/
def scheduleUpdate (kw : ScheduleKwargs) (e : ScheduleEntry) : ScheduleEntry :=
  { e with schedule_type := kw.schedule_type, minutes := kw.minutes,
           repeats := kw.repeats.getD (-1) }

/-- Model of `schedule_task` (tasks.py lines 33-65): if a row with
`func == taskname` exists, update the scheduling fields of every such row
in place (`Schedule.objects.filter(func=taskname).update(**kwargs)`, which
does not touch `name`); otherwise create one row with
`name = func = taskname`. -/
def schedule_task (db : List ScheduleEntry) (taskname : String)
    (kw : ScheduleKwargs) : List ScheduleEntry :=
  if db.any (fun e => e.func == taskname) then
    db.map (fun e => if e.func == taskname then scheduleUpdate kw e else e)
  else
    db ++ [{ name := taskname, func := taskname,
             schedule_type := kw.schedule_type, minutes := kw.minutes,
             repeats := kw.repeats.getD (-1) }]

/-! ### Task registry (`ScheduledTask`, `TaskRegister`, `scheduled_task`,
tasks.py lines 228-297) -/

/-- One registered task definition (`ScheduledTask` dataclass): a
callable (by reference id), an interval string, optional minutes. -/
structure ScheduledTaskDef where
  func : FuncId
  interval : String
  minutes : Option Int
deriving DecidableEq

/-- `ScheduledTask.TYPE`: the seven recognized interval values
(MINUTES, HOURLY, DAILY, WEEKLY, MONTHLY, QUARTERLY, YEARLY). -/
def scheduledTaskTYPE : List String :=
  ["I", "H", "D", "W", "M", "Q", "Y"]

/-- Model of registration through the `scheduled_task` decorator
(tasks.py lines 286-297): `_task_wrapper` raises `ValueError` when the
wrapped object is not callable or the interval is not one of the seven
recognized values; otherwise it appends the task definition to the
registry's list via `TaskRegister.register`.  `task_is_callable` is the
`isinstance(admin_class, Callable)` test on the wrapped object `fid`. -/
def scheduled_task_register (task_is_callable : Bool) (fid : FuncId)
    (interval : String) (minutes : Option Int)
    (task_list : List ScheduledTaskDef) :
    Except String (List ScheduledTaskDef) :=
  if task_is_callable = false then
    .error "Wrapped object must be a function"
  else if interval ∉ scheduledTaskTYPE then
    .error "Invalid interval"
  else
    .ok (task_list ++ [{ func := fid, interval := interval, minutes := minutes }])

/-! ### `TaskRegister.task_list` as a Python class attribute
(tasks.py lines 251-260)

The class body runs once and binds `task_list` to one list object; the
class has no `__init__`, so a fresh instance has an empty instance
dictionary, and `self.task_list` falls back to the class attribute.
`self.task_list.append(...)` then mutates that shared object.  We model
the heap of list objects explicitly to state this. -/

/-- A heap of Python list objects: contents per address, plus the next
fresh address. -/
structure ListHeap where
  objs : Nat → List ScheduledTaskDef
  next : Nat

/-- The `TaskRegister` class object: its class dictionary binds
`task_list` to a heap reference. -/
structure TaskRegisterCls where
  task_list_ref : Nat
deriving DecidableEq

/-- Evaluating the class body `task_list: List[ScheduledTask] = []`:
allocates one fresh empty list on the heap and binds the class attribute
to it. -/
def makeTaskRegisterCls (h : ListHeap) : ListHeap × TaskRegisterCls :=
  ({ objs := fun r => if r = h.next then [] else h.objs r, next := h.next + 1 },
   { task_list_ref := h.next })

/-- A `TaskRegister` instance: its instance dictionary may bind
`task_list` (shadowing the class attribute) or not. -/
structure TaskRegisterInst where
  own_task_list : Option Nat
deriving DecidableEq

/-- `TaskRegister()`: the class defines no `__init__`, so the instance
dictionary starts empty. -/
def newTaskRegisterInst : TaskRegisterInst :=
  { own_task_list := none }

/-- Python attribute lookup for `self.task_list`: the instance
dictionary first, else the class attribute. -/
def taskListRef (cls : TaskRegisterCls) (inst : TaskRegisterInst) : Nat :=
  match inst.own_task_list with
  | some r => r
  | none => cls.task_list_ref

/-- Reads the list object a reference points at. -/
def heapList (h : ListHeap) (r : Nat) : List ScheduledTaskDef :=
  h.objs r

/-- Model of `TaskRegister.register` (tasks.py lines 255-257):
`self.task_list.append(ScheduledTask(task, schedule, minutes))` mutates
the list object that attribute lookup finds. -/
def taskRegisterAppend (h : ListHeap) (cls : TaskRegisterCls)
    (inst : TaskRegisterInst) (t : ScheduledTaskDef) : ListHeap :=
  let r := taskListRef cls inst
  { objs := fun q => if q = r then h.objs r ++ [t] else h.objs q,
    next := h.next }

/-! ### Migration apply (`check_for_migrations`, tasks.py lines 620-629) -/

/-- What the external `call_command('migrate', interactive=False)` does:
succeeds, or raises `NotSupportedError`. -/
inductive MigrateRes where
  | ok
  | notSupported
deriving DecidableEq

/-- Model of the `try/except NotSupportedError` block inside
`check_for_migrations` (tasks.py lines 624-629): the error is re-raised
unless the configured default database engine is
`django.db.backends.sqlite3`, in which case it is only logged. -/
def apply_migrations (engine : String) (r : MigrateRes) :
    Except String Unit :=
  match r with
  | .ok => .ok ()
  | .notSupported =>
    if engine ≠ "django.db.backends.sqlite3" then
      .error "NotSupportedError"
    else
      .ok ()

/-! ## Helper lemmas -/

theorem check_attempt_blocked (parse : String → Option Int)
    (iso : Int → String) (now : Int) (s : Settings) (task_name : String)
    (ha : attemptBlocks parse now s task_name = true) :
    check_attempt parse iso now s task_name = (false, s) := by
  unfold check_attempt
  unfold attemptBlocks at ha
  by_cases hraw : get_setting s ("_" ++ task_name ++ "_ATTEMPT") = ""
  · simp [hraw] at ha
  · simp only [if_neg hraw] at ha ⊢
    cases hp : parse (get_setting s ("_" ++ task_name ++ "_ATTEMPT")) with
    | none => rw [hp] at ha; simp at ha
    | some t =>
      rw [hp] at ha
      simp only [decide_eq_true_eq] at ha
      simp [ha]

theorem check_attempt_clear (parse : String → Option Int)
    (iso : Int → String) (now : Int) (s : Settings) (task_name : String)
    (ha : attemptBlocks parse now s task_name = false) :
    check_attempt parse iso now s task_name =
      (true, record_task_attempt iso now s task_name) := by
  unfold check_attempt
  unfold attemptBlocks at ha
  by_cases hraw : get_setting s ("_" ++ task_name ++ "_ATTEMPT") = ""
  · simp [hraw]
  · simp only [if_neg hraw] at ha ⊢
    cases hp : parse (get_setting s ("_" ++ task_name ++ "_ATTEMPT")) with
    | none => simp
    | some t =>
      rw [hp] at ha
      simp only [decide_eq_false_iff_not] at ha
      simp [ha]

theorem holdoff_reduces_to_attempt (parse : String → Option Int)
    (iso : Int → String) (now : Int) (s : Settings) (task_name : String)
    (n_days : Int) (h0 : ¬ n_days ≤ 0)
    (hs : successBlocks parse now s task_name n_days = false) :
    check_daily_holdoff parse iso now s task_name n_days =
      check_attempt parse iso now s task_name := by
  unfold check_daily_holdoff
  rw [if_neg h0]
  unfold successBlocks at hs
  by_cases hraw : get_setting s ("_" ++ task_name ++ "_SUCCESS") = ""
  · simp [hraw]
  · simp only [if_neg hraw] at hs ⊢
    cases hp : parse (get_setting s ("_" ++ task_name ++ "_SUCCESS")) with
    | none => simp
    | some t =>
      rw [hp] at hs
      simp only [decide_eq_false_iff_not] at hs
      simp [hs]

/-! ## Claims -/

/-- C6: for every `n_days <= 0`, `check_daily_holdoff` returns `False`
immediately (fails closed) and mutates no state: neither the attempt
timestamp nor the success timestamp of the task is written (the returned
store is the input store). -/
theorem holdoff_nonpositive_days_fails_closed (parse : String → Option Int)
    (iso : Int → String) (now : Int) (s : Settings) (task_name : String)
    (n_days : Int) (h : n_days ≤ 0) :
    check_daily_holdoff parse iso now s task_name n_days = (false, s) := by
  unfold check_daily_holdoff
  rw [if_pos h]

/-- Witness for C6 at a concrete input. -/
theorem holdoff_nonpositive_days_fails_closed_witness :
    check_daily_holdoff parseTs isoTs 100 [("k", "v")] "dummy_task" 0 =
      (false, [("k", "v")]) :=
  holdoff_nonpositive_days_fails_closed parseTs isoTs 100 [("k", "v")]
    "dummy_task" 0 (by decide)

/-- C4: for every task whose stored success timestamp is present, parses
as a valid timestamp, and lies strictly within `n_days` of `now`,
`check_daily_holdoff` returns `False`, regardless of the attempt
timestamp's state, and without recording a new attempt (the returned
store is the input store). -/
theorem holdoff_recent_success_blocks (parse : String → Option Int)
    (iso : Int → String) (now t : Int) (s : Settings) (task_name : String)
    (n_days : Int)
    (hraw : get_setting s ("_" ++ task_name ++ "_SUCCESS") ≠ "")
    (hparse : parse (get_setting s ("_" ++ task_name ++ "_SUCCESS")) = some t)
    (ht : t > now - 24 * n_days) :
    check_daily_holdoff parse iso now s task_name n_days = (false, s) := by
  unfold check_daily_holdoff
  by_cases h0 : n_days ≤ 0
  · rw [if_pos h0]
  · rw [if_neg h0]
    simp only [if_neg hraw, hparse]
    simp [ht]

/-- Witness for C4 at a concrete input (a success 10 hours ago, inside a
1-day window, with a stale attempt record also present). -/
theorem holdoff_recent_success_blocks_witness :
    check_daily_holdoff parseTs isoTs 100
      [("_dummy_task_SUCCESS", "90"), ("_dummy_task_ATTEMPT", "1")]
      "dummy_task" 1 =
      (false, [("_dummy_task_SUCCESS", "90"), ("_dummy_task_ATTEMPT", "1")]) :=
  holdoff_recent_success_blocks parseTs isoTs 100 90
    [("_dummy_task_SUCCESS", "90"), ("_dummy_task_ATTEMPT", "1")]
    "dummy_task" 1 (by decide) (by decide) (by decide)

/-- C3: for every task with no success timestamp recorded within the
`n_days` window (`n_days > 0`): `check_daily_holdoff` returns `False`
without mutating state when a valid last-attempt timestamp lies strictly
within 12 hours of `now`; otherwise it records a new attempt timestamp
equal to `now` (a persisted side effect via `record_task_attempt`) and
returns `True`. -/
theorem holdoff_attempt_guard_dichotomy (parse : String → Option Int)
    (iso : Int → String) (now : Int) (s : Settings) (task_name : String)
    (n_days : Int) (h0 : 0 < n_days)
    (hs : successBlocks parse now s task_name n_days = false) :
    (attemptBlocks parse now s task_name = true →
      check_daily_holdoff parse iso now s task_name n_days = (false, s)) ∧
    (attemptBlocks parse now s task_name = false →
      check_daily_holdoff parse iso now s task_name n_days =
        (true, record_task_attempt iso now s task_name)) := by
  have hred := holdoff_reduces_to_attempt parse iso now s task_name n_days
    (by omega) hs
  exact ⟨fun ha => by rw [hred]; exact check_attempt_blocked _ _ _ _ _ ha,
         fun ha => by rw [hred]; exact check_attempt_clear _ _ _ _ _ ha⟩

/-- Witness for C3 at concrete inputs: an attempt 5 hours ago blocks; no
attempt record leads to a recorded attempt at `now` and `True`. -/
theorem holdoff_attempt_guard_dichotomy_witness :
    check_daily_holdoff parseTs isoTs 100 [("_dummy_task_ATTEMPT", "95")]
      "dummy_task" 1 = (false, [("_dummy_task_ATTEMPT", "95")]) ∧
    check_daily_holdoff parseTs isoTs 100 [] "dummy_task" 1 =
      (true, [("_dummy_task_ATTEMPT", "100")]) :=
  ⟨(holdoff_attempt_guard_dichotomy parseTs isoTs 100
      [("_dummy_task_ATTEMPT", "95")] "dummy_task" 1 (by decide)
      (by decide)).1 (by decide),
   (holdoff_attempt_guard_dichotomy parseTs isoTs 100 [] "dummy_task" 1
      (by decide) (by decide)).2 (by decide)⟩

theorem offload_async_case (env : PyEnv) (worker : Bool) (t : TaskRef)
    (args : Args) (fa fs : Bool) (h : asyncPath worker fa fs = true) :
    offload_task env worker t args fa fs =
      .ok { enqueued := [(t, args)], calls := [], warnings := 0 } := by
  unfold asyncPath at h
  unfold offload_task
  rw [if_pos h]

theorem offload_sync_func (env : PyEnv) (worker : Bool) (f : FuncId)
    (args : Args) (fa fs : Bool) (h : asyncPath worker fa fs = false) :
    offload_task env worker (.func f) args fa fs =
      .ok { enqueued := [], calls := [(f, args)], warnings := 0 } := by
  unfold asyncPath at h
  unfold offload_task
  rw [if_neg (by simp [h])]

theorem offload_sync_of_str (env : PyEnv) (worker : Bool) (path : String)
    (args : Args) (fa fs : Bool) (h : asyncPath worker fa fs = false) :
    offload_task env worker (.str path) args fa fs =
      offload_sync_str env path args := by
  unfold asyncPath at h
  unfold offload_task
  rw [if_neg (by simp [h])]

theorem offload_sync_str_no_enqueue (env : PyEnv) (path : String)
    (args : Args) :
    enqueuedOf (offload_sync_str env path args) = [] := by
  unfold offload_sync_str
  split
  · split
    · rfl
    · split
      · rfl
      · split <;> rfl
  · rfl

theorem offload_sync_no_enqueue (env : PyEnv) (worker : Bool) (t : TaskRef)
    (args : Args) (fa fs : Bool) (h : asyncPath worker fa fs = false) :
    enqueuedOf (offload_task env worker t args fa fs) = [] := by
  cases t with
  | func f => rw [offload_sync_func env worker f args fa fs h]; rfl
  | str path =>
    rw [offload_sync_of_str env worker path args fa fs h]
    exact offload_sync_str_no_enqueue env path args

/-- C5 (amended): the asynchronous path is taken, with exactly one
enqueue of the original task and arguments and no inline call, if and
only if `force_async` is true or the worker pool is live and
`force_sync` is false; in every other case the synchronous path is
taken, and a task given as a callable is invoked inline exactly once
with the supplied arguments.  (As literally stated the claim fails: on
the synchronous path a task given as an unresolvable string is not
invoked at all, see the counterexample.) -/
theorem dispatch_path_selection (env : PyEnv) (worker : Bool) (t : TaskRef)
    (args : Args) (fa fs : Bool) :
    (enqueuedOf (offload_task env worker t args fa fs) ≠ [] ↔
      asyncPath worker fa fs = true) ∧
    (asyncPath worker fa fs = true →
      offload_task env worker t args fa fs =
        .ok { enqueued := [(t, args)], calls := [], warnings := 0 }) ∧
    (∀ f, asyncPath worker fa fs = false → t = .func f →
      offload_task env worker t args fa fs =
        .ok { enqueued := [], calls := [(f, args)], warnings := 0 }) := by
  refine ⟨⟨fun hne => ?_, fun h => ?_⟩, fun h => offload_async_case _ _ _ _ _ _ h,
          fun f h ht => ?_⟩
  · by_contra hF
    exact hne (offload_sync_no_enqueue env worker t args fa fs
      (by revert hF; cases asyncPath worker fa fs <;> simp))
  · rw [offload_async_case env worker t args fa fs h]
    simp [enqueuedOf]
  · subst ht
    exact offload_sync_func env worker f args fa fs h

/-- Witness for C5: a forced-async dispatch enqueues exactly once, and a
synchronous dispatch of a callable invokes it inline exactly once with
the supplied arguments. -/
theorem dispatch_path_selection_witness :
    offload_task ⟨[], []⟩ false (.func 3) [5] true false =
      .ok { enqueued := [(.func 3, [5])], calls := [], warnings := 0 } ∧
    offload_task ⟨[], []⟩ false (.func 4) [6] false false =
      .ok { enqueued := [], calls := [(4, [6])], warnings := 0 } :=
  ⟨(dispatch_path_selection ⟨[], []⟩ false (.func 3) [5] true false).2.1
      (by decide),
   (dispatch_path_selection ⟨[], []⟩ false (.func 4) [6] false false).2.2 4
      (by decide) rfl⟩

/-- Counterexample to C5 as literally stated: with `force_sync = True`
and the malformed dotted path `"a.b"`, the synchronous path is taken
(the branch condition of tasks.py line 182 is false) but the task is
not invoked at all — the dispatch only logs a warning. -/
theorem dispatch_sync_without_invocation_cex :
    asyncPath false false true = false ∧
    offload_task ⟨[], []⟩ false (.str "a.b") [5] false true =
      .ok { enqueued := [], calls := [], warnings := 1 } := by
  decide

/-- C2 (amended): on the synchronous path, if the task string does not
split into exactly three dot-separated components, or the two-component
module path cannot be imported, or the named function is found neither
as an attribute of that module nor by the dispatcher's fallback `eval`
name lookup in its own namespace, then the dispatcher emits one logged
warning, the task is never invoked, and no exception propagates to the
caller.  (As literally stated the claim fails: a function absent from
the module can still be found by the `eval` fallback and is then
invoked, see the counterexample.) -/
theorem dispatch_string_failure_warns_and_skips (env : PyEnv)
    (worker : Bool) (path : String) (args : Args) (fa fs : Bool)
    (hsync : asyncPath worker fa fs = false) :
    ((pySplitDot path).length ≠ 3 →
      offload_task env worker (.str path) args fa fs =
        .ok { enqueued := [], calls := [], warnings := 1 }) ∧
    (∀ a m f, pySplitDot path = [a, m, f] →
      env.modules.find? (fun p => p.1 == a ++ "." ++ m) = none →
      offload_task env worker (.str path) args fa fs =
        .ok { enqueued := [], calls := [], warnings := 1 }) ∧
    (∀ a m f mm, pySplitDot path = [a, m, f] →
      env.modules.find? (fun p => p.1 == a ++ "." ++ m) = some mm →
      mm.2.find? (fun p => p.1 == f) = none →
      pyEval env f = .nameError →
      offload_task env worker (.str path) args fa fs =
        .ok { enqueued := [], calls := [], warnings := 1 }) := by
  rw [offload_sync_of_str env worker path args fa fs hsync]
  unfold offload_sync_str
  refine ⟨fun hlen => ?_, fun a m f hsp hmod => ?_,
          fun a m f mm hsp hmod hattr hev => ?_⟩
  · rcases hsp : pySplitDot path with _ | ⟨a, _ | ⟨b, _ | ⟨c, _ | ⟨d, rest⟩⟩⟩⟩ <;>
      first
        | rfl
        | (exact absurd (by simp [hsp]) hlen)
  · rw [hsp]
    simp [hmod]
  · rw [hsp]
    simp [hmod, hattr, hev]

/-- Witness for C2: the three graceful failure modes at concrete inputs
(two components; module missing; function found neither in the module
nor by the fallback lookup). -/
theorem dispatch_string_failure_warns_and_skips_witness :
    offload_task ⟨[], []⟩ false (.str "a.b") [5] false true =
      .ok { enqueued := [], calls := [], warnings := 1 } ∧
    offload_task ⟨[], []⟩ false (.str "a.b.c") [5] false true =
      .ok { enqueued := [], calls := [], warnings := 1 } ∧
    offload_task ⟨[("a.b", [])], []⟩ false (.str "a.b.c") [5] false true =
      .ok { enqueued := [], calls := [], warnings := 1 } :=
  ⟨(dispatch_string_failure_warns_and_skips ⟨[], []⟩ false "a.b" [5] false
      true (by decide)).1 (by decide),
   (dispatch_string_failure_warns_and_skips ⟨[], []⟩ false "a.b.c" [5] false
      true (by decide)).2.1 "a" "b" "c" (by decide) (by decide),
   (dispatch_string_failure_warns_and_skips ⟨[("a.b", [])], []⟩ false
      "a.b.c" [5] false true (by decide)).2.2 "a" "b" "c" ("a.b", [])
      (by decide) (by decide) (by decide) (by decide)⟩

/-- Counterexample to C2 as literally stated: module `a.b` exists and
does not export `c` (the named function cannot be found in that module),
yet the dispatch invokes a task anyway — the `eval` fallback at tasks.py
line 219 resolves `c` in the dispatcher's own namespace and the function
found there is called with the supplied arguments. -/
theorem dispatch_eval_fallback_invokes_cex :
    pySplitDot "a.b.c" = ["a", "b", "c"] ∧
    (PyEnv.mk [("a.b", [])] [("c", 7)]).modules.find?
      (fun p => p.1 == "a" ++ "." ++ "b") = some ("a.b", []) ∧
    ([] : List (String × FuncId)).find? (fun p => p.1 == "c") = none ∧
    offload_task ⟨[("a.b", [])], [("c", 7)]⟩ false (.str "a.b.c") [5]
      false true =
      .ok { enqueued := [], calls := [(7, [5])], warnings := 0 } := by
  decide

/-- C1: in `check_for_updates`, the tag `"v1.2.3-final"` parses to
`[1, 2, 3]` and leads to the tag string being persisted under
`_INVENTREE_LATEST_VERSION` together with a recorded success; but for
the non-matching tag `"release-one"` the code does not produce the
logged non-fatal parse failure the claim describes — `re.match` returns
`None` and the unguarded `match.groups()` call raises an uncaught
`AttributeError` (the warning branch at tasks.py lines 472-474 is
unreachable).  No state is mutated in that case. -/
theorem update_check_tag_parse_behavior :
    check_for_updates_tag isoTs 5 "v1.2.3-final" [] =
      .ok (some [1, 2, 3],
        [("_check_for_updates_SUCCESS", "5"),
         ("_INVENTREE_LATEST_VERSION", "v1.2.3-final")]) ∧
    re_match_version "release-one" = none ∧
    check_for_updates_tag isoTs 5 "release-one" [] =
      .error .attributeError := by
  decide

theorem scheduleUpd_preserves_func (t : String) (kw : ScheduleKwargs)
    (e : ScheduleEntry) :
    (if e.func == t then scheduleUpdate kw e else e).func = e.func := by
  by_cases h : e.func = t <;> simp [h, scheduleUpdate]

theorem filter_map_pred_preserving (u : ScheduleEntry → ScheduleEntry)
    (p : ScheduleEntry → Bool) (hp : ∀ e, p (u e) = p e)
    (db : List ScheduleEntry) :
    (db.map u).filter p = (db.filter p).map u := by
  induction db with
  | nil => rfl
  | cons e tl ih =>
    rw [List.map_cons, List.filter_cons, List.filter_cons, hp]
    cases hb : p e
    · simpa using ih
    · simp [ih]

theorem filter_match_map_upd (db : List ScheduleEntry) (t : String)
    (kw : ScheduleKwargs) :
    (db.map (fun e => if e.func == t then scheduleUpdate kw e else e)).filter
        (fun e => e.func == t) =
      (db.filter (fun e => e.func == t)).map
        (fun e => if e.func == t then scheduleUpdate kw e else e) :=
  filter_map_pred_preserving _ _
    (fun e => by rw [scheduleUpd_preserves_func]) db

theorem mem_map_upd_fields (db : List ScheduleEntry) (t : String)
    (kw : ScheduleKwargs) (e : ScheduleEntry)
    (he : e ∈ db.map (fun x => if x.func == t then scheduleUpdate kw x else x))
    (hf : e.func = t) :
    e.schedule_type = kw.schedule_type ∧ e.minutes = kw.minutes ∧
      e.repeats = kw.repeats.getD (-1) := by
  rcases List.mem_map.mp he with ⟨x, hx, rfl⟩
  by_cases h : x.func = t
  · simp [h, scheduleUpdate]
  · rw [if_neg (by simp [h])] at hf
    exact absurd hf h

theorem map_upd_no_match (db : List ScheduleEntry) (t : String)
    (kw : ScheduleKwargs) (h : ∀ e ∈ db, ¬ e.func = t) :
    db.map (fun e => if e.func == t then scheduleUpdate kw e else e) = db := by
  induction db with
  | nil => rfl
  | cons e tl ih =>
    have he : ¬ e.func = t := h e (List.mem_cons_self e tl)
    rw [List.map_cons, if_neg (by simp [he]),
      ih (fun x hx => h x (List.mem_cons_of_mem e hx))]

theorem filter_nonmatch_map_upd (db : List ScheduleEntry) (t : String)
    (kw : ScheduleKwargs) :
    (db.map (fun e => if e.func == t then scheduleUpdate kw e else e)).filter
        (fun e => e.func != t) =
      db.filter (fun e => e.func != t) := by
  rw [filter_map_pred_preserving _ (fun e => e.func != t)
    (fun e => by simp only [scheduleUpd_preserves_func]) db]
  apply map_upd_no_match
  intro e he hf
  have := (List.mem_filter.mp he).2
  rw [hf] at this
  simp at this

theorem schedule_task_of_no_match (db : List ScheduleEntry) (t : String)
    (kw : ScheduleKwargs) (h : db.any (fun e => e.func == t) = false) :
    schedule_task db t kw =
      db ++ [{ name := t, func := t, schedule_type := kw.schedule_type,
               minutes := kw.minutes, repeats := kw.repeats.getD (-1) }] := by
  unfold schedule_task
  rw [if_neg (by simp [h])]

theorem schedule_task_of_match (db : List ScheduleEntry) (t : String)
    (kw : ScheduleKwargs) (h : db.any (fun e => e.func == t) = true) :
    schedule_task db t kw =
      db.map (fun e => if e.func == t then scheduleUpdate kw e else e) := by
  unfold schedule_task
  rw [if_pos h]

/-- C7: `schedule_task` is an idempotent upsert on the task name.
Starting from a store holding at most one entry for `func = taskname`,
calling it twice leaves exactly one entry with that `func`; every such
entry carries the second call's parameters (with `repeats` defaulted to
`-1` when unspecified); entries for other `func` values are untouched;
and when no entry existed, the result is the old store plus one new
entry with `name = func = taskname`. -/
theorem schedule_task_upsert_idempotent (db : List ScheduleEntry)
    (taskname : String) (k1 k2 : ScheduleKwargs)
    (h : (db.filter (fun e => e.func == taskname)).length ≤ 1) :
    ((schedule_task (schedule_task db taskname k1) taskname k2).filter
        (fun e => e.func == taskname)).length = 1 ∧
    (∀ e ∈ schedule_task (schedule_task db taskname k1) taskname k2,
      e.func = taskname →
      e.schedule_type = k2.schedule_type ∧ e.minutes = k2.minutes ∧
        e.repeats = k2.repeats.getD (-1)) ∧
    ((schedule_task (schedule_task db taskname k1) taskname k2).filter
        (fun e => e.func != taskname) =
      db.filter (fun e => e.func != taskname)) ∧
    (db.any (fun e => e.func == taskname) = false →
      schedule_task (schedule_task db taskname k1) taskname k2 =
        db ++ [{ name := taskname, func := taskname,
                 schedule_type := k2.schedule_type, minutes := k2.minutes,
                 repeats := k2.repeats.getD (-1) }]) := by
  by_cases hany : db.any (fun e => e.func == taskname) = true
  · -- an entry already exists: both calls update in place
    have h1 := schedule_task_of_match db taskname k1 hany
    have hany1 : (schedule_task db taskname k1).any
        (fun e => e.func == taskname) = true := by
      rw [h1]
      rcases List.any_eq_true.mp hany with ⟨x, hx, hpx⟩
      exact List.any_eq_true.mpr
        ⟨_, List.mem_map_of_mem _ hx,
         by rw [scheduleUpd_preserves_func]; exact hpx⟩
    have h2 := schedule_task_of_match _ taskname k2 hany1
    have hlen1 : 1 ≤ (db.filter (fun e => e.func == taskname)).length := by
      rcases List.any_eq_true.mp hany with ⟨x, hx, hpx⟩
      have : x ∈ db.filter (fun e => e.func == taskname) :=
        List.mem_filter.mpr ⟨hx, hpx⟩
      exact List.length_pos.mpr (fun hnil => by simp [hnil] at this)
    refine ⟨?_, ?_, ?_, ?_⟩
    · rw [h2, h1, filter_match_map_upd, filter_match_map_upd]
      simp only [List.length_map]
      omega
    · intro e he hf
      rw [h2] at he
      exact mem_map_upd_fields _ taskname k2 e he hf
    · rw [h2, h1, filter_nonmatch_map_upd, filter_nonmatch_map_upd]
    · intro hno
      rw [hno] at hany
      exact absurd hany (by simp)
  · -- no entry yet: the first call creates, the second updates it
    have hany' : db.any (fun e => e.func == taskname) = false := by
      revert hany
      cases db.any (fun e => e.func == taskname) <;> simp
    have hnomem : ∀ e ∈ db, ¬ e.func = taskname := by
      intro e he hf
      have hx : db.any (fun x => x.func == taskname) = true :=
        List.any_eq_true.mpr ⟨e, he, by simp [hf]⟩
      rw [hany'] at hx
      exact Bool.false_ne_true hx
    have h1 := schedule_task_of_no_match db taskname k1 hany'
    have hany1 : (schedule_task db taskname k1).any
        (fun e => e.func == taskname) = true := by
      rw [h1]
      exact List.any_eq_true.mpr
        ⟨{ name := taskname, func := taskname,
           schedule_type := k1.schedule_type, minutes := k1.minutes,
           repeats := k1.repeats.getD (-1) }, by simp, by simp⟩
    have h2 := schedule_task_of_match _ taskname k2 hany1
    have hfinal : schedule_task (schedule_task db taskname k1) taskname k2 =
        db ++ [{ name := taskname, func := taskname,
                 schedule_type := k2.schedule_type, minutes := k2.minutes,
                 repeats := k2.repeats.getD (-1) }] := by
      rw [h2, h1, List.map_append, map_upd_no_match db taskname k2 hnomem]
      simp [scheduleUpdate]
    refine ⟨?_, ?_, ?_, fun _ => hfinal⟩
    · rw [hfinal]
      have hnil : db.filter (fun e => e.func == taskname) = [] :=
        List.filter_eq_nil_iff.mpr (fun e he => by simp [hnomem e he])
      simp [List.filter_append, hnil]
    · intro e he hf
      rw [hfinal] at he
      rcases List.mem_append.mp he with hmem | hmem
      · exact absurd hf (hnomem e hmem)
      · rcases List.mem_singleton.mp hmem with rfl
        exact ⟨rfl, rfl, rfl⟩
    · rw [hfinal]
      simp [List.filter_append]

/-- Witness for C7 at a concrete input: two upserts for `"x"` starting
from a store with one unrelated entry produce exactly one `"x"` row,
carrying the second call's parameters. -/
theorem schedule_task_upsert_idempotent_witness :
    ((schedule_task (schedule_task
        [{ name := "y", func := "y", schedule_type := "D", minutes := none,
           repeats := 5 }] "x" ⟨"D", none, none⟩) "x"
        ⟨"I", some 10, some 3⟩).filter (fun e => e.func == "x")).length = 1 ∧
    schedule_task (schedule_task
        [{ name := "y", func := "y", schedule_type := "D", minutes := none,
           repeats := 5 }] "x" ⟨"D", none, none⟩) "x" ⟨"I", some 10, some 3⟩ =
      [{ name := "y", func := "y", schedule_type := "D", minutes := none,
         repeats := 5 },
       { name := "x", func := "x", schedule_type := "I", minutes := some 10,
         repeats := 3 }] :=
  ⟨(schedule_task_upsert_idempotent
      [{ name := "y", func := "y", schedule_type := "D", minutes := none,
         repeats := 5 }] "x" ⟨"D", none, none⟩ ⟨"I", some 10, some 3⟩
      (by decide)).1,
   (schedule_task_upsert_idempotent
      [{ name := "y", func := "y", schedule_type := "D", minutes := none,
         repeats := 5 }] "x" ⟨"D", none, none⟩ ⟨"I", some 10, some 3⟩
      (by decide)).2.2.2 (by decide)⟩

/-- C8: registering into the task registry through the `scheduled_task`
wrapper fails with an error raised to the caller when the task is not
callable, or when the interval is not one of the seven recognized values
`["I", "H", "D", "W", "M", "Q", "Y"]` (MINUTES, HOURLY, DAILY, WEEKLY,
MONTHLY, QUARTERLY, YEARLY); a valid registration appends the task
definition to the process-wide ordered list. -/
theorem scheduled_task_registration_validation (c : Bool) (fid : FuncId)
    (interval : String) (minutes : Option Int)
    (tl : List ScheduledTaskDef) :
    ((c = false ∨ interval ∉ scheduledTaskTYPE) →
      ∃ msg, scheduled_task_register c fid interval minutes tl = .error msg) ∧
    (c = true → interval ∈ scheduledTaskTYPE →
      scheduled_task_register c fid interval minutes tl =
        .ok (tl ++ [{ func := fid, interval := interval, minutes := minutes }])) := by
  constructor
  · intro hbad
    unfold scheduled_task_register
    rcases hbad with rfl | hint
    · exact ⟨_, by rw [if_pos rfl]⟩
    · cases c
      · exact ⟨_, by rw [if_pos rfl]⟩
      · exact ⟨_, by rw [if_neg (by simp), if_pos hint]⟩
  · rintro rfl hint
    unfold scheduled_task_register
    rw [if_neg (by simp), if_neg (by simp [hint])]

/-- Witness for C8: a valid registration appends; a non-callable and a
bad interval each raise. -/
theorem scheduled_task_registration_validation_witness :
    scheduled_task_register true 3 "D" none [] =
      .ok [{ func := 3, interval := "D", minutes := none }] ∧
    (∃ msg, scheduled_task_register false 3 "D" none [] = .error msg) ∧
    (∃ msg, scheduled_task_register true 3 "X" none [] = .error msg) :=
  ⟨(scheduled_task_registration_validation true 3 "D" none []).2 rfl
      (by decide),
   (scheduled_task_registration_validation false 3 "D" none []).1
      (Or.inl rfl),
   (scheduled_task_registration_validation true 3 "X" none []).1
      (Or.inr (by decide))⟩

/-- C9: a `NotSupportedError` raised while applying migrations is
tolerated (absorbed, merely logged) if and only if the configured
database engine is sqlite (`django.db.backends.sqlite3`); for every
other engine it is re-raised to the caller. -/
theorem migration_not_supported_tolerated_iff_sqlite (engine : String) :
    (apply_migrations engine .notSupported = .ok () ↔
      engine = "django.db.backends.sqlite3") ∧
    (engine ≠ "django.db.backends.sqlite3" →
      apply_migrations engine .notSupported = .error "NotSupportedError") := by
  unfold apply_migrations
  by_cases h : engine = "django.db.backends.sqlite3" <;> simp [h]

/-- Witness for C9: sqlite absorbs the error, postgresql re-raises. -/
theorem migration_not_supported_tolerated_iff_sqlite_witness :
    apply_migrations "django.db.backends.sqlite3" .notSupported = .ok () ∧
    apply_migrations "django.db.backends.postgresql" .notSupported =
      .error "NotSupportedError" :=
  ⟨(migration_not_supported_tolerated_iff_sqlite
      "django.db.backends.sqlite3").1.mpr rfl,
   (migration_not_supported_tolerated_iff_sqlite
      "django.db.backends.postgresql").2 (by decide)⟩

/-- C10: `TaskRegister.task_list` is a class-level attribute, not a
per-instance one: two freshly constructed instances resolve
`self.task_list` to the same single list object allocated when the class
body ran, `register` called on either instance appends to that one
process-wide list, and duplicate registrations of the same callable
accumulate rather than replace. -/
theorem task_register_shared_class_list (h0 : ListHeap)
    (t1 t2 : ScheduledTaskDef) :
    taskListRef (makeTaskRegisterCls h0).2 newTaskRegisterInst =
      taskListRef (makeTaskRegisterCls h0).2 newTaskRegisterInst ∧
    heapList (makeTaskRegisterCls h0).1
      (taskListRef (makeTaskRegisterCls h0).2 newTaskRegisterInst) = [] ∧
    heapList
      (taskRegisterAppend
        (taskRegisterAppend (makeTaskRegisterCls h0).1
          (makeTaskRegisterCls h0).2 newTaskRegisterInst t1)
        (makeTaskRegisterCls h0).2 newTaskRegisterInst t2)
      (taskListRef (makeTaskRegisterCls h0).2 newTaskRegisterInst) =
        [t1, t2] ∧
    heapList
      (taskRegisterAppend
        (taskRegisterAppend (makeTaskRegisterCls h0).1
          (makeTaskRegisterCls h0).2 newTaskRegisterInst t1)
        (makeTaskRegisterCls h0).2 newTaskRegisterInst t1)
      (taskListRef (makeTaskRegisterCls h0).2 newTaskRegisterInst) =
        [t1, t1] := by
  refine ⟨rfl, ?_, ?_, ?_⟩ <;>
    simp [makeTaskRegisterCls, taskListRef, newTaskRegisterInst,
      taskRegisterAppend, heapList]

/-- Witness for C10 at a concrete heap and tasks. -/
theorem task_register_shared_class_list_witness :
    heapList
      (taskRegisterAppend
        (taskRegisterAppend (makeTaskRegisterCls ⟨fun _ => [], 0⟩).1
          (makeTaskRegisterCls ⟨fun _ => [], 0⟩).2 newTaskRegisterInst
          { func := 1, interval := "D", minutes := none })
        (makeTaskRegisterCls ⟨fun _ => [], 0⟩).2 newTaskRegisterInst
        { func := 2, interval := "I", minutes := some 5 })
      (taskListRef (makeTaskRegisterCls ⟨fun _ => [], 0⟩).2
        newTaskRegisterInst) =
      [{ func := 1, interval := "D", minutes := none },
       { func := 2, interval := "I", minutes := some 5 }] :=
  (task_register_shared_class_list ⟨fun _ => [], 0⟩
    { func := 1, interval := "D", minutes := none }
    { func := 2, interval := "I", minutes := some 5 }).2.2.1

end InvenTreeTasks
